import Mathlib

/-
Verification development for the boundary-generation batch script
(src/boundary_generator.py).  The geometry algorithms themselves
(validity testing, zero-distance buffering, topology-preserving
simplification, reprojection, unary union) are delegated to an external
computational-geometry library and are therefore modelled as an abstract
operations record `GeomOps` over a concrete GeoJSON-style geometry type;
everything the script itself does (control flow, filtering, feature
assembly, file naming, batch driving) is embedded directly.
-/

namespace BoundaryGen

/-- GeoJSON-style geometry value: type tag plus coordinate structure.
Coordinates are modelled as rational pairs. -/
inductive Geometry where
  | point (c : Rat × Rat)
  | lineString (cs : List (Rat × Rat))
  | polygon (rings : List (List (Rat × Rat)))
  | multiPolygon (polys : List (List (List (Rat × Rat))))
  deriving Repr, DecidableEq

/-- The geometry type name, as geopandas exposes it via `.geometry.type`. -/
def Geometry.geomType : Geometry → String
  | .point _ => "Point"
  | .lineString _ => "LineString"
  | .polygon _ => "Polygon"
  | .multiPolygon _ => "MultiPolygon"

/-- Whether the geometry has no coordinate content (shapely `is_empty`). -/
def Geometry.is_empty : Geometry → Bool
  | .point _ => false
  | .lineString cs => cs.isEmpty
  | .polygon rings => rings.isEmpty
  | .multiPolygon ps => ps.isEmpty

/-- The constituent polygons of a geometry (a Polygon is one part, a
MultiPolygon is its list of parts, other types have none). -/
def polyPartsOf : Geometry → List (List (List (Rat × Rat)))
  | .polygon rings => [rings]
  | .multiPolygon ps => ps
  | _ => []

/-- Abstract interface to the external computational-geometry library
(shapely / geopandas).  `buffer` takes a distance, `simplify` takes a
tolerance and the preserve-topology flag, `to_crs` takes an EPSG code. -/
structure GeomOps where
  is_valid : Geometry → Bool
  buffer : Geometry → Rat → Geometry
  simplify : Geometry → Rat → Bool → Geometry
  to_crs : Geometry → Nat → Geometry
  unary_union : List Geometry → Geometry

/-- Embedding of `clean_geometry` (src/boundary_generator.py lines 34-42):
buffer by zero when the geometry is not valid, then simplify at tolerance
0.0001 with preserve_topology=True. -/
def clean_geometry (ops : GeomOps) (geometry : Geometry) : Geometry :=
  let geometry := if ¬ ops.is_valid geometry then ops.buffer geometry 0 else geometry
  ops.simplify geometry (0.0001 : Rat) true

/-- One row of the fetched GeoDataFrame after the column selection
`gdf[['name', 'geometry']]` (line 113): an OSM feature's name and geometry. -/
structure Row where
  name : String
  geometry : Geometry
  deriving Repr, DecidableEq

/-- A JSON value appearing in a Feature's property bag. -/
inductive PropValue where
  | str (s : String)
  | listVal (xs : List String)
  | nullVal
  deriving Repr, DecidableEq

/-- A GeoJSON Feature as the script builds it (lines 124-133): the literal
dict has keys type ("Feature", implicit here), id, properties, geometry.
The `json.loads(... .to_json())` round-trip of the merged geometry is the
external library's GeoJSON serialization, which preserves the geometry's
type and coordinates; it is modelled as the geometry itself. -/
structure Feature where
  id : Option Int
  properties : List (String × PropValue)
  geometry : Geometry
  deriving Repr, DecidableEq

/-- A GeoJSON FeatureCollection (lines 135-138). -/
structure FeatureCollection where
  features : List Feature
  deriving Repr, DecidableEq

/-- The script's effectful environment: `ox.features_from_place` (which can
raise, e.g. on network failure or an unmatched name — modelled as `Except`)
and the file system (a write either succeeds or raises an I/O error,
modelled by `write_error` giving the error message for a path, if any). -/
structure Env where
  fetch : String → Except String (List Row)
  write_error : String → Option String

/-- Configured place list (src/boundary_generator.py lines 11-13). -/
def CITIES : List String := ["South Cotabato, Philippines"]

/-- Configured admin level (line 15). -/
def ADMIN_LEVEL : String := "8"

/-- Configured output directory (line 21). -/
def OUTPUT_FOLDER : String := "output"

/-- Line 112: `gdf[gdf.geometry.type.isin(["Polygon", "MultiPolygon"])]` —
keep only the rows whose geometry type is Polygon or MultiPolygon. -/
def keep_polygonal (gdf : List Row) : List Row :=
  gdf.filter fun r => ["Polygon", "MultiPolygon"].contains r.geometry.geomType

/-- Line 114: `gdf.to_crs(epsg=4326)` — reproject every row's geometry. -/
def reproject (ops : GeomOps) (gdf : List Row) : List Row :=
  gdf.map fun r => { r with geometry := ops.to_crs r.geometry 4326 }

/-- Line 117: buffer(0) every invalid geometry, keep valid ones as is. -/
def repair_invalid (ops : GeomOps) (gdf : List Row) : List Row :=
  gdf.map fun r =>
    { r with geometry := if ¬ ops.is_valid r.geometry then ops.buffer r.geometry 0 else r.geometry }

/-- Line 118: `gdf.simplify(tolerance=0.0001, preserve_topology=True)`. -/
def simplify_rows (ops : GeomOps) (gdf : List Row) : List Row :=
  gdf.map fun r => { r with geometry := ops.simplify r.geometry (0.0001 : Rat) true }

/-- The list of geometries handed to `unary_union` at line 121: the fetched
rows filtered to polygonal types, reprojected, repaired and simplified. -/
def merge_input (ops : GeomOps) (gdf : List Row) : List Geometry :=
  (simplify_rows ops (repair_invalid ops (reproject ops (keep_polygonal gdf)))).map
    fun r => r.geometry

/-- The per-geometry effect of lines 114, 117 and 118 on a single row. -/
def transform_geom (ops : GeomOps) (g : Geometry) : Geometry :=
  let g := ops.to_crs g 4326
  let g := if ¬ ops.is_valid g then ops.buffer g 0 else g
  ops.simplify g (0.0001 : Rat) true

/-- The Feature dict literal of lines 124-133: id None, properties
{name, source "user-drawn", nurseries []}, geometry the merged geometry. -/
def make_feature (city_name : String) (merged_geom : Geometry) : Feature :=
  { id := none,
    properties :=
      [("name", .str city_name), ("source", .str "user-drawn"), ("nurseries", .listVal [])],
    geometry := merged_geom }

/-- Python `str.replace` for a single-character pattern: every occurrence
of the character is replaced by the (possibly empty) replacement string. -/
def py_replace_char (s : String) (pat : Char) (rep : String) : String :=
  ⟨(s.data.map fun c => if c = pat then rep.data else [c]).flatten⟩

/-- Line 141: `city_name.replace(",", "").replace(" ", "_")` — commas are
replaced by the empty string, then spaces by underscores. -/
def safe_name (city_name : String) : String :=
  py_replace_char (py_replace_char city_name ',' "") ' ' "_"

/-- Line 142: `os.path.join(OUTPUT_FOLDER, f"{safe_name}.geojson")`. -/
def output_path_for (city_name : String) : String :=
  OUTPUT_FOLDER ++ "/" ++ safe_name city_name ++ ".geojson"

/-- The body of `process_city` (lines 102-145), i.e. everything inside the
try block.  Returns the file write it performs (path and written
FeatureCollection), `none` when it returns early on an empty fetch, or an
error when an exception is raised (fetch failure or write failure). -/
def process_city_body (ops : GeomOps) (env : Env) (city_name : String) :
    Except String (Option (String × FeatureCollection)) :=
  match env.fetch city_name with
  | .error e => .error e
  | .ok gdf =>
    if gdf.isEmpty then .ok none
    else
      let merged_geom := ops.unary_union (merge_input ops gdf)
      let feature := make_feature city_name merged_geom
      let geo_dict : FeatureCollection := { features := [feature] }
      let output_path := output_path_for city_name
      match env.write_error output_path with
      | some e => .error e
      | none => .ok (some (output_path, geo_dict))

/-- Outcome of one batch item: either the body ran to its end (carrying the
write it performed, if any), or an exception was caught and logged. -/
inductive ItemResult where
  | done (write : Option (String × FeatureCollection))
  | failed (msg : String)
  deriving Repr, DecidableEq

/-- `process_city` with its `except Exception` handler (lines 147-148):
any error raised by the body is caught and turned into a logged failure. -/
def process_city (ops : GeomOps) (env : Env) (city_name : String) : ItemResult :=
  match process_city_body ops env city_name with
  | .ok w => .done w
  | .error e => .failed e

/-- The main loop (lines 154-156): process every configured city in order. -/
def run_batch (ops : GeomOps) (env : Env) (cities : List String) : List ItemResult :=
  cities.map (process_city ops env)

/-- The write performed by a run of the body, if it completed with one. -/
def written_of : Except String (Option (String × FeatureCollection)) →
    Option (String × FeatureCollection)
  | .ok (some w) => some w
  | _ => none

/-- The Features written by a run of the body (empty when nothing was written). -/
def features_of (r : Except String (Option (String × FeatureCollection))) : List Feature :=
  match written_of r with
  | some (_, fc) => fc.features
  | none => []

/-- The output path written by a run of the body, if any. -/
def path_of (r : Except String (Option (String × FeatureCollection))) : Option String :=
  (written_of r).map Prod.fst

/-- The value under the key "name" in a Feature's property bag. -/
def feature_name (f : Feature) : Option PropValue :=
  (f.properties.find? fun kv => kv.1 == "name").map Prod.snd

/-- Modelled from the spec: the Boundary Index (spec §3) — the fuzzy-resolver
subsystem is not present under src/.  A mapping from normalized-lowercase
place name to file path, held with a stable iteration order (spec §4.3
relies on input iteration order for tie-breaks). -/
abbrev BoundaryIndex := List (String × String)

/-- Modelled from the spec: query normalization (spec §4.3) — "Normalize
query the same way as index keys (trim, lowercase)".  Trimming and
lowercasing are spelled out on the character list. -/
def normalize_query (s : String) : String :=
  ⟨((s.data.dropWhile Char.isWhitespace).reverse.dropWhile
      Char.isWhitespace).reverse.map Char.toLower⟩

/-- Modelled from the spec: the fuzzy scan of §4.3 — score every key with
the similarity measure and keep the first-encountered maximum (stable
iteration order, strict improvement required to displace the incumbent). -/
def fuzzy_best (sim : String → String → Rat) (q : String) (index : BoundaryIndex) :
    Option (String × String × Rat) :=
  index.foldl
    (fun best kv =>
      let s := sim q kv.1
      match best with
      | none => some (kv.1, kv.2, s)
      | some (bk, bp, bs) => if s > bs then some (kv.1, kv.2, s) else some (bk, bp, bs))
    none

/-- Modelled from the spec: `resolve` (spec §4.3) — the Fuzzy Resolver is
not present under src/.  Normalize the query; exact key lookup first,
returning immediately on a hit; otherwise take the best fuzzy candidate
and accept it only when its similarity clears the fixed 0.70 threshold. -/
def resolve (sim : String → String → Rat) (query : String) (index : BoundaryIndex) :
    Option String :=
  match index.find? (fun kv => kv.1 == normalize_query query) with
  | some kv => some kv.2
  | none =>
    match fuzzy_best sim (normalize_query query) index with
    | some (_, path, score) => if score ≥ (0.70 : Rat) then some path else none
    | none => none

/-- A concrete instance of the external geometry library for evaluating the
embedding on closed inputs: every geometry counts as valid, buffering,
simplification and reprojection leave coordinates unchanged, and union
collects polygon parts (a singleton union is the geometry itself). -/
def modelOps : GeomOps :=
  { is_valid := fun _ => true,
    buffer := fun g _ => g,
    simplify := fun g _ _ => g,
    to_crs := fun g _ => g,
    unary_union := fun gs =>
      match gs with
      | [g] => g
      | gs => .multiPolygon (gs.map polyPartsOf).flatten }

/-- A concrete geometry-library instance in which empty geometries are the
invalid ones, for exercising the repair branch. -/
def emptyInvalidOps : GeomOps :=
  { is_valid := fun g => ! g.is_empty,
    buffer := fun g _ => g,
    simplify := fun g _ _ => g,
    to_crs := fun g _ => g,
    unary_union := fun gs =>
      match gs with
      | [g] => g
      | gs => .multiPolygon (gs.map polyPartsOf).flatten }

/-- A two-part MultiPolygon source geometry (an archipelago-style province). -/
def batanesMP : Geometry :=
  .multiPolygon
    [[[(0, 0), (1, 0), (1, 1), (0, 0)]],
     [[(2, 2), (3, 2), (3, 3), (2, 2)]]]

/-- An environment whose fetch returns a single row holding `batanesMP`
for the place "Batanes" and fails for every other name; writes succeed. -/
def envBatanes : Env :=
  { fetch := fun name =>
      if name == "Batanes" then .ok [{ name := "Batanes", geometry := batanesMP }]
      else .error "Nominatim could not geocode query",
    write_error := fun _ => none }

/-- An environment for the configured city "South Cotabato, Philippines"
with a single simple polygon row; writes succeed. -/
def envSouthCotabato : Env :=
  { fetch := fun name =>
      if name == "South Cotabato, Philippines" then
        .ok [{ name := "South Cotabato",
               geometry := .polygon [[(0, 0), (2, 0), (2, 2), (0, 0)]] }]
      else .error "Nominatim could not geocode query",
    write_error := fun _ => none }

/-- An environment whose fetch always raises, and whose writes succeed. -/
def envOffline : Env :=
  { fetch := fun _ => .error "network unreachable",
    write_error := fun _ => none }

/-- An environment whose fetch returns an empty feature set for every name. -/
def envEmptyFetch : Env :=
  { fetch := fun _ => .ok [],
    write_error := fun _ => none }

/-- Claim C7: the geometry normalizer applies the zero-distance buffering
repair exactly when the input geometry is not topologically valid (valid
inputs are not buffered), and then replaces the geometry with a
topology-preserving simplification at tolerance 0.0001. -/
theorem claim_C7_clean_geometry_repair_iff_invalid (ops : GeomOps) (g : Geometry) :
    (ops.is_valid g = true →
      clean_geometry ops g = ops.simplify g (0.0001 : Rat) true) ∧
    (ops.is_valid g = false →
      clean_geometry ops g = ops.simplify (ops.buffer g 0) (0.0001 : Rat) true) := by
  constructor <;> intro h <;> simp [clean_geometry, h]

/-- Witness for C7: a valid triangle is simplified without buffering, and an
invalid (empty) polygon is buffered by zero before simplification. -/
theorem claim_C7_witness :
    clean_geometry emptyInvalidOps (.polygon [[(0, 0), (1, 0), (1, 1), (0, 0)]])
      = emptyInvalidOps.simplify
          (.polygon [[(0, 0), (1, 0), (1, 1), (0, 0)]]) (0.0001 : Rat) true ∧
    clean_geometry emptyInvalidOps (.polygon [])
      = emptyInvalidOps.simplify
          (emptyInvalidOps.buffer (.polygon []) 0) (0.0001 : Rat) true :=
  ⟨(claim_C7_clean_geometry_repair_iff_invalid emptyInvalidOps
      (.polygon [[(0, 0), (1, 0), (1, 1), (0, 0)]])).1 rfl,
   (claim_C7_clean_geometry_repair_iff_invalid emptyInvalidOps (.polygon [])).2 rfl⟩

/-- Claim C8: geometry normalization is idempotent on geometries that are
already valid and already simplified (fixed points of the simplification
at the configured tolerance): normalize (normalize g) = normalize g. -/
theorem claim_C8_clean_geometry_idempotent (ops : GeomOps) (g : Geometry)
    (hvalid : ops.is_valid g = true)
    (hsimp : ops.simplify g (0.0001 : Rat) true = g) :
    clean_geometry ops (clean_geometry ops g) = clean_geometry ops g := by
  have hfix : clean_geometry ops g = g := by
    simp [clean_geometry, hvalid, hsimp]
  rw [hfix]
  exact hfix

/-- Witness for C8 at a concrete valid, already-simplified triangle. -/
theorem claim_C8_witness :
    clean_geometry modelOps
        (clean_geometry modelOps (.polygon [[(0, 0), (1, 0), (1, 1), (0, 0)]]))
      = clean_geometry modelOps (.polygon [[(0, 0), (1, 0), (1, 1), (0, 0)]]) :=
  claim_C8_clean_geometry_idempotent modelOps
    (.polygon [[(0, 0), (1, 0), (1, 1), (0, 0)]]) rfl rfl

/-- Claim C9: if the feature set fetched for a place name is empty,
process_city returns without writing any output file and without raising
an error. -/
theorem claim_C9_empty_fetch_no_write (ops : GeomOps) (env : Env) (name : String)
    (hf : env.fetch name = .ok []) :
    process_city ops env name = .done none := by
  simp [process_city, process_city_body, hf]

/-- Witness for C9: the empty-fetch environment on the configured city. -/
theorem claim_C9_witness :
    process_city modelOps envEmptyFetch "South Cotabato, Philippines" = .done none :=
  claim_C9_empty_fetch_no_write modelOps envEmptyFetch "South Cotabato, Philippines" rfl

/-- Claim C2: the batch driver processes every configured item: the result
list has one entry per place name, and each entry is the (always-defined)
result of processing that name alone — failures inside one item are caught
by `process_city` and cannot affect any other item. -/
theorem claim_C2_batch_processes_every_item (ops : GeomOps) (env : Env)
    (cities : List String) :
    (run_batch ops env cities).length = cities.length ∧
    ∀ (i : Nat) (name : String), cities[i]? = some name →
      (run_batch ops env cities)[i]? = some (process_city ops env name) := by
  refine ⟨by simp [run_batch], ?_⟩
  intro i name h
  show (cities.map (process_city ops env))[i]? = some (process_city ops env name)
  rw [List.getElem?_map, h]
  rfl

/-- Witness for C2: with the network down, the configured batch still yields
a logged result for its first (and only) configured city. -/
theorem claim_C2_witness :
    (run_batch modelOps envOffline CITIES)[0]?
      = some (process_city modelOps envOffline "South Cotabato, Philippines") :=
  (claim_C2_batch_processes_every_item modelOps envOffline CITIES).2 0
    "South Cotabato, Philippines" rfl

/-- In an association list with pairwise-distinct keys, `find?` on a key
that is present returns exactly its entry. -/
theorem find_entry_of_mem_nodup (q p : String) :
    ∀ (index : BoundaryIndex), (index.map Prod.fst).Nodup → (q, p) ∈ index →
      index.find? (fun kv => kv.1 == q) = some (q, p) := by
  intro index
  induction index with
  | nil => intro _ hmem; simp at hmem
  | cons hd tl ih =>
    intro hnd hmem
    rw [List.map_cons, List.nodup_cons] at hnd
    rcases List.mem_cons.mp hmem with heq | htl
    · rw [← heq]
      exact List.find?_cons_of_pos _ (by simp)
    · have hne : hd.1 ≠ q := by
        intro he
        exact hnd.1 (he ▸ List.mem_map_of_mem Prod.fst htl)
      rw [List.find?_cons_of_neg _ (by simp [hne])]
      exact ih hnd.2 htl

/-- Claim C6: for every query whose trimmed, lowercased form is a key of the
boundary index, `resolve` returns exactly the path associated with that
key, whatever the similarity measure — exact lookup precedes fuzzy
matching. -/
theorem claim_C6_resolve_exact_hit (sim : String → String → Rat) (query : String)
    (index : BoundaryIndex) (p : String)
    (hnd : (index.map Prod.fst).Nodup)
    (hmem : (normalize_query query, p) ∈ index) :
    resolve sim query index = some p := by
  unfold resolve
  rw [find_entry_of_mem_nodup (normalize_query query) p index hnd hmem]

/-- A small concrete boundary index for evaluating the resolver. -/
def demoIndex : BoundaryIndex :=
  [("nueva vizcaya", "provinces/nueva_vizcaya.json"),
   ("isabela", "provinces/medres/isabela.json")]

/-- Witness for C6: the query "Isabela" normalizes to the key "isabela"
and resolves to its path, with an arbitrary similarity measure. -/
theorem claim_C6_witness :
    resolve (fun _ _ => (0 : Rat)) "Isabela" demoIndex
      = some "provinces/medres/isabela.json" :=
  claim_C6_resolve_exact_hit (fun _ _ => (0 : Rat)) "Isabela" demoIndex
    "provinces/medres/isabela.json" (by decide) (by decide)

/-- On a successful fetch of a nonempty feature set with a succeeding write,
the body writes exactly one file: the FeatureCollection holding the single
merged Feature, at the path derived from the city name. -/
theorem process_city_body_success (ops : GeomOps) (env : Env) (name : String)
    (rows : List Row) (hf : env.fetch name = .ok rows) (hne : rows ≠ [])
    (hw : env.write_error (output_path_for name) = none) :
    process_city_body ops env name =
      .ok (some (output_path_for name,
        { features := [make_feature name (ops.unary_union (merge_input ops rows))] })) := by
  cases rows with
  | nil => cases hne rfl
  | cons a l => simp [process_city_body, hf, hw]

/-- Claim C1 counterexample: for the two-part MultiPolygon source geometry
`batanesMP` (k = 2 parts), the script emits exactly one Feature, not two,
and its name is the bare display name with no sequential suffix. -/
theorem claim_C1_counterexample :
    (polyPartsOf batanesMP).length = 2 ∧
    (features_of (process_city_body modelOps envBatanes "Batanes")).length = 1 ∧
    (features_of (process_city_body modelOps envBatanes "Batanes")).map feature_name
      = [some (PropValue.str "Batanes")] := by
  refine ⟨rfl, rfl, rfl⟩

/-- Claim C1 (amended): for every fetched geometry set — multi-part or not —
the script emits exactly one Feature, carrying the display name unchanged
(no per-part suffix); its geometry is the merged union of all parts. -/
theorem claim_C1_single_merged_feature (ops : GeomOps) (env : Env) (name : String)
    (rows : List Row) (hf : env.fetch name = .ok rows) (hne : rows ≠ [])
    (hw : env.write_error (output_path_for name) = none) :
    (features_of (process_city_body ops env name)).length = 1 ∧
    (features_of (process_city_body ops env name)).map feature_name
      = [some (PropValue.str name)] := by
  rw [process_city_body_success ops env name rows hf hne hw]
  constructor
  · rfl
  · simp [features_of, written_of, make_feature, feature_name]

/-- Witness for the amended C1 at the concrete two-part Batanes input. -/
theorem claim_C1_witness :
    (features_of (process_city_body modelOps envBatanes "Batanes")).length = 1 ∧
    (features_of (process_city_body modelOps envBatanes "Batanes")).map feature_name
      = [some (PropValue.str "Batanes")] :=
  claim_C1_single_merged_feature modelOps envBatanes "Batanes"
    [{ name := "Batanes", geometry := batanesMP }] rfl (by decide) rfl

/-- The file-name derivation as the spec sentence words it (for comparison
with the source's `safe_name`): every space and every comma replaced by an
underscore. -/
def spec_safe_name (city_name : String) : String :=
  py_replace_char (py_replace_char city_name ' ' "_") ',' "_"

/-- Claim C3 counterexample: for the configured city
"South Cotabato, Philippines" the script writes
`output/South_Cotabato_Philippines.geojson` (the comma is deleted), while
replacing every space and comma by an underscore would give
`South_Cotabato__Philippines`. -/
theorem claim_C3_counterexample :
    path_of (process_city_body modelOps envSouthCotabato "South Cotabato, Philippines")
      = some "output/South_Cotabato_Philippines.geojson" ∧
    spec_safe_name "South Cotabato, Philippines" = "South_Cotabato__Philippines" ∧
    path_of (process_city_body modelOps envSouthCotabato "South Cotabato, Philippines")
      ≠ some (OUTPUT_FOLDER ++ "/"
          ++ spec_safe_name "South Cotabato, Philippines" ++ ".geojson") := by
  refine ⟨rfl, rfl, by decide⟩

/-- Claim C3 (amended): for every successfully processed place name, the
output file name is the place name with every comma removed and every
space replaced by an underscore, plus the fixed ".geojson" extension,
inside the fixed output directory. -/
theorem claim_C3_output_filename (ops : GeomOps) (env : Env) (name : String)
    (rows : List Row) (hf : env.fetch name = .ok rows) (hne : rows ≠ [])
    (hw : env.write_error (output_path_for name) = none) :
    path_of (process_city_body ops env name)
      = some (OUTPUT_FOLDER ++ "/"
          ++ py_replace_char (py_replace_char name ',' "") ' ' "_" ++ ".geojson") := by
  rw [process_city_body_success ops env name rows hf hne hw]
  rfl

/-- Witness for the amended C3 at the configured city. -/
theorem claim_C3_witness :
    path_of (process_city_body modelOps envSouthCotabato "South Cotabato, Philippines")
      = some (OUTPUT_FOLDER ++ "/"
          ++ py_replace_char (py_replace_char "South Cotabato, Philippines" ',' "") ' ' "_"
          ++ ".geojson") :=
  claim_C3_output_filename modelOps envSouthCotabato "South Cotabato, Philippines"
    [{ name := "South Cotabato",
       geometry := .polygon [[(0, 0), (2, 0), (2, 2), (0, 0)]] }] rfl (by decide) rfl

/-- Whether a property value is a string bearing a trailing "Z" (the shape
of an ISO-8601 UTC timestamp). -/
def is_utc_z : PropValue → Bool
  | .str s => s.data.getLast? == some 'Z'
  | _ => false

/-- Claim C4 counterexample: the emitted property bag holds exactly the
display name, the provenance string and the empty annotation list — three
entries, none of which is a "Z"-suffixed timestamp string, so no creation
timestamp is present. -/
theorem claim_C4_counterexample :
    (features_of (process_city_body modelOps envBatanes "Batanes")).map
        (fun f => f.properties)
      = [[("name", PropValue.str "Batanes"), ("source", PropValue.str "user-drawn"),
          ("nurseries", PropValue.listVal [])]] ∧
    ((features_of (process_city_body modelOps envBatanes "Batanes")).all
        fun f => f.properties.all fun kv => ! is_utc_z kv.2) = true := by
  exact ⟨rfl, rfl⟩

/-- Claim C4 (amended): every emitted Feature's property bag contains
exactly the display name, the fixed provenance string "user-drawn" and the
empty extensible annotation list "nurseries" — and no creation timestamp. -/
theorem claim_C4_property_bag (ops : GeomOps) (env : Env) (name : String)
    (rows : List Row) (hf : env.fetch name = .ok rows) (hne : rows ≠ [])
    (hw : env.write_error (output_path_for name) = none) :
    (features_of (process_city_body ops env name)).map (fun f => f.properties)
      = [[("name", PropValue.str name), ("source", PropValue.str "user-drawn"),
          ("nurseries", PropValue.listVal [])]] := by
  rw [process_city_body_success ops env name rows hf hne hw]
  rfl

/-- Witness for the amended C4 at the concrete Batanes input. -/
theorem claim_C4_witness :
    (features_of (process_city_body modelOps envBatanes "Batanes")).map
        (fun f => f.properties)
      = [[("name", PropValue.str "Batanes"), ("source", PropValue.str "user-drawn"),
          ("nurseries", PropValue.listVal [])]] :=
  claim_C4_property_bag modelOps envBatanes "Batanes"
    [{ name := "Batanes", geometry := batanesMP }] rfl (by decide) rfl

/-- Claim C5 counterexample: the emitted Feature's identifier is the JSON
null (`None` at line 126), not a numeric wall-clock-derived value. -/
theorem claim_C5_counterexample :
    (features_of (process_city_body modelOps envBatanes "Batanes")).map (fun f => f.id)
      = [(none : Option Int)] ∧
    ((features_of (process_city_body modelOps envBatanes "Batanes")).all
        fun f => f.id.isNone) = true := by
  exact ⟨rfl, rfl⟩

/-- Claim C5 (amended): every emitted Feature carries the null identifier
(`id: None`); no time-derived numeric identifier is attached. -/
theorem claim_C5_id_is_null (ops : GeomOps) (env : Env) (name : String)
    (rows : List Row) (hf : env.fetch name = .ok rows) (hne : rows ≠ [])
    (hw : env.write_error (output_path_for name) = none) :
    (features_of (process_city_body ops env name)).map (fun f => f.id)
      = [(none : Option Int)] := by
  rw [process_city_body_success ops env name rows hf hne hw]
  rfl

/-- Witness for the amended C5 at the concrete Batanes input. -/
theorem claim_C5_witness :
    (features_of (process_city_body modelOps envBatanes "Batanes")).map (fun f => f.id)
      = [(none : Option Int)] :=
  claim_C5_id_is_null modelOps envBatanes "Batanes"
    [{ name := "Batanes", geometry := batanesMP }] rfl (by decide) rfl

/-- The geometries handed to `unary_union` are exactly the per-row
transformations of the rows surviving the polygonal-type filter. -/
theorem merge_input_eq_filtered (ops : GeomOps) (rows : List Row) :
    merge_input ops rows
      = (keep_polygonal rows).map fun r => transform_geom ops r.geometry := by
  simp only [merge_input, simplify_rows, repair_invalid, reproject, List.map_map]
  rfl

/-- Claim C10: the emitted Feature's geometry is the union over exactly the
source rows whose geometry type is Polygon or MultiPolygon (each
reprojected, repaired and simplified); every row surviving the filter has
one of those two types, all other rows being dropped before merging. -/
theorem claim_C10_merge_polygonal_only (ops : GeomOps) (env : Env) (name : String)
    (rows : List Row) (hf : env.fetch name = .ok rows) (hne : rows ≠ [])
    (hw : env.write_error (output_path_for name) = none) :
    (features_of (process_city_body ops env name)).map (fun f => f.geometry)
      = [ops.unary_union
          ((keep_polygonal rows).map fun r => transform_geom ops r.geometry)] ∧
    ∀ r ∈ keep_polygonal rows,
      r.geometry.geomType = "Polygon" ∨ r.geometry.geomType = "MultiPolygon" := by
  constructor
  · rw [process_city_body_success ops env name rows hf hne hw, ← merge_input_eq_filtered]
    rfl
  · intro r hr
    simp [keep_polygonal] at hr
    exact hr.2

/-- Rows of mixed geometry types for exercising the polygonal filter. -/
def rowsMixed : List Row :=
  [{ name := "node", geometry := .point (5, 5) },
   { name := "way", geometry := .lineString [(0, 0), (1, 1)] },
   { name := "Mixedville", geometry := .polygon [[(0, 0), (2, 0), (2, 2), (0, 0)]] }]

/-- An environment fetching the mixed-type rows for "Mixedville". -/
def envMixed : Env :=
  { fetch := fun name =>
      if name == "Mixedville" then .ok rowsMixed
      else .error "Nominatim could not geocode query",
    write_error := fun _ => none }

/-- Witness for C10 at the mixed-type input: the emitted geometry is the
union over just the one polygonal row. -/
theorem claim_C10_witness :
    (features_of (process_city_body modelOps envMixed "Mixedville")).map
        (fun f => f.geometry)
      = [modelOps.unary_union
          ((keep_polygonal rowsMixed).map fun r => transform_geom modelOps r.geometry)] :=
  (claim_C10_merge_polygonal_only modelOps envMixed "Mixedville" rowsMixed rfl
    (by decide) rfl).1

end BoundaryGen
